import Mathlib

/-
Verification of the content-generation backend (Express server in the repository).
The definitions below are a shallow embedding of the server code: the zod input
schema, the prompt templates, the cache middleware, the error-handler middleware,
and the three endpoints (generatePost, generateImage, generate-poll), each modelled
as a pure function from the environment, the cache state, the request body and the
outcome of the single upstream model call to the HTTP response plus the new cache
state.
-/

set_option autoImplicit false

namespace SocialPoster

/-! ## String utilities mirroring JavaScript string operations -/

/-- Whitespace characters recognised by the JavaScript regex class backslash-s
and by String.prototype.trim (the ASCII portion, which covers all inputs here). -/
def isJsSpace (c : Char) : Bool :=
  c == ' ' || c == '\t' || c == '\n' || c == '\r' || c == '\x0b' || c == '\x0c'

/-- JavaScript String.prototype.trim: drop whitespace from both ends. -/
def jsTrim (s : String) : String :=
  String.mk (((s.data.dropWhile isJsSpace).reverse.dropWhile isJsSpace).reverse)

/-- JavaScript line.replace with regex caret [0-9]+ dot backslash-s-star and empty
replacement: if the line starts with one or more digits followed by a literal dot,
remove them together with any whitespace that follows; otherwise return the line
unchanged. -/
def stripNumericMarker (s : String) : String :=
  let cs := s.data
  let ds := cs.takeWhile Char.isDigit
  if ds.isEmpty then s
  else
    match cs.drop ds.length with
    | '.' :: rest => String.mk (rest.dropWhile isJsSpace)
    | _ => s

/-- Helper for splitting a character list at newline characters. -/
def splitLinesAux : List Char → List Char → List (List Char)
  | [], acc => [acc.reverse]
  | c :: cs, acc =>
    if c == '\n' then acc.reverse :: splitLinesAux cs [] else splitLinesAux cs (c :: acc)

/-- JavaScript String.prototype.split with separator a newline character. -/
def jsSplitNewline (s : String) : List String :=
  (splitLinesAux s.data []).map String.mk

/-! ## Data model: request bodies -/

/-- The optional preferences object of the content schema. -/
structure Preferences where
  platforms : Option (List (String × Bool))
  tonePreference : Option String
  contentLength : Option String
  hashtagPreference : Option String
deriving DecidableEq

/-- An inbound JSON body for the generatePost endpoint, before validation.
Absent JSON keys are modelled as none. -/
structure RawContent where
  postType : Option String
  topic : Option String
  audience : Option String
  style : Option String
  guidelines : Option String
  preferences : Option Preferences
deriving DecidableEq

/-- An inbound JSON body for the generate-poll endpoint (destructured fields). -/
structure PollBody where
  topic : Option String
  audience : Option String
  style : Option String
  guidelines : Option String
deriving DecidableEq

/-- An inbound JSON body for the generateImage endpoint. -/
structure ImageBody where
  prompt : Option String
deriving DecidableEq

/-! ## Request validation (the zod contentSchema) -/

/-- A single zod validation issue: the offending path and its message. -/
structure ZodIssue where
  path : String
  message : String
deriving DecidableEq

/-- The z.enum check of contentSchema: postType must be post, thread or poll. -/
def isValidPostType (t : String) : Bool :=
  t == "post" || t == "thread" || t == "poll"

/-- All issues contentSchema.parse reports for a body: the enum check on postType
and the min-length-1 check on topic (zod reports every violated field, not just
the first). audience, style, guidelines and preferences are optional and cannot
fail on these bodies. -/
def contentSchemaIssues (r : RawContent) : List ZodIssue :=
  (match r.postType with
   | none => [⟨"postType", "Required"⟩]
   | some t => if isValidPostType t then [] else [⟨"postType", "Invalid enum value"⟩]) ++
  (match r.topic with
   | none => [⟨"topic", "Required"⟩]
   | some t => if t.length == 0 then [⟨"topic", "Topic is required"⟩] else [])

/-- The validated request produced by contentSchema.parse, with the documented
defaults applied to the optional fields. -/
structure ContentRequest where
  postType : String
  topic : String
  audience : String
  style : String
  guidelines : String
  preferences : Option Preferences
deriving DecidableEq

/-- contentSchema.parse: succeed with defaults applied when no issue is found,
otherwise throw a ZodError carrying every issue. The getD fallbacks on postType
and topic are unreachable when the issue list is empty. -/
def contentSchemaParse (r : RawContent) : Except (List ZodIssue) ContentRequest :=
  let issues := contentSchemaIssues r
  if issues.isEmpty then
    Except.ok
      { postType := r.postType.getD ""
        topic := r.topic.getD ""
        audience := r.audience.getD "general audience"
        style := r.style.getD "neutral and engaging"
        guidelines := r.guidelines.getD "none"
        preferences := r.preferences }
  else Except.error issues

/-- Does contentSchema.parse accept the body? -/
def schemaAccepts (r : RawContent) : Bool :=
  match contentSchemaParse r with
  | Except.ok _ => true
  | Except.error _ => false

/-! ## Prompt templates -/

/-- Interpolation of a possibly-undefined JavaScript value into a template
literal: undefined renders as the string undefined. -/
def jsInterp : Option String → String
  | none => "undefined"
  | some s => s

/-- JSON.stringify of the platforms map; stringify of undefined interpolates as
the string undefined. -/
def stringifyPlatforms : Option (List (String × Bool)) → String
  | none => "undefined"
  | some ps =>
    "\x7b" ++ String.intercalate ","
      (ps.map (fun p => "\"" ++ p.1 ++ "\":" ++ (if p.2 then "true" else "false"))) ++ "\x7d"

/-- The post template of promptTemplates. -/
def postTemplate (c : ContentRequest) : String :=
  "\n    Generate a social media post.\n    Topic: " ++ c.topic ++
  "\n    Target Audience: " ++ c.audience ++
  "\n    Style: " ++ c.style ++
  "\n    Guidelines: " ++ c.guidelines ++
  "\n    " ++
  (match c.preferences with
   | none => ""
   | some p =>
     "Platform Preferences: " ++ stringifyPlatforms p.platforms ++
     "\n    Tone Preference: " ++ jsInterp p.tonePreference ++
     "\n    Content Length: " ++ jsInterp p.contentLength ++
     "\n    Hashtag Preference: " ++ jsInterp p.hashtagPreference) ++
  "\n  "

/-- The thread template of promptTemplates. -/
def threadTemplate (c : ContentRequest) : String :=
  "\n    Generate a multi-post thread for a Twitter-like platform.\n    Topic: " ++ c.topic ++
  "\n    Target Audience: " ++ c.audience ++
  "\n    Style: " ++ c.style ++
  "\n    Guidelines: " ++ c.guidelines ++
  "\n    " ++
  (match c.preferences with
   | none => ""
   | some p =>
     "Tone Preference: " ++ jsInterp p.tonePreference ++
     "\n    Content Length: " ++ jsInterp p.contentLength ++
     "\n    Hashtag Preference: " ++ jsInterp p.hashtagPreference) ++
  "\n  "

/-- The poll template of promptTemplates, including the six-line format
instruction. -/
def pollTemplate (c : ContentRequest) : String :=
  "\n    Generate an engaging social media poll.\n    Topic: " ++ c.topic ++
  "\n    Target Audience: " ++ c.audience ++
  "\n    Style: " ++ c.style ++
  "\n    Guidelines: " ++ c.guidelines ++
  "\n\n    Please format the response EXACTLY like this:\n    1. Poll Question\n    2. Option A\n    3. Option B\n    4. Option C\n    5. Option D\n    6. Explanation of why this poll is engaging\n  "

/-- The promptTemplates object: lookup of the template for a content type. -/
def promptTemplates (type : String) : Option (ContentRequest → String) :=
  if type == "post" then some postTemplate
  else if type == "thread" then some threadTemplate
  else if type == "poll" then some pollTemplate
  else none

/-- generatePrompt: apply the template of the type, or throw Invalid content
type when the object lookup yields undefined. -/
def generatePrompt (type : String) (content : ContentRequest) : Except String String :=
  match promptTemplates type with
  | none => Except.error ("Invalid content type: " ++ type)
  | some template => Except.ok (template content)

/-! ## JSON serialization of request bodies (JSON.stringify on req.body) -/

/-- JSON string literal (inputs here contain no characters needing escapes). -/
def jsonStrLit (s : String) : String := "\"" ++ s ++ "\""

/-- Render one optional string field of a JSON object; absent keys are omitted
by JSON.stringify. -/
def jsonFieldStr (name : String) (v : Option String) : List String :=
  match v with
  | none => []
  | some s => [jsonStrLit name ++ ":" ++ jsonStrLit s]

/-- JSON.stringify of the platforms record. -/
def jsonPlatformsObj (ps : List (String × Bool)) : String :=
  "\x7b" ++ String.intercalate ","
    (ps.map (fun p => jsonStrLit p.1 ++ ":" ++ (if p.2 then "true" else "false"))) ++ "\x7d"

/-- JSON.stringify of the preferences object. -/
def stringifyPreferencesObj (p : Preferences) : String :=
  "\x7b" ++ String.intercalate ","
    ((match p.platforms with
      | none => []
      | some ps => [jsonStrLit "platforms" ++ ":" ++ jsonPlatformsObj ps]) ++
     jsonFieldStr "tonePreference" p.tonePreference ++
     jsonFieldStr "contentLength" p.contentLength ++
     jsonFieldStr "hashtagPreference" p.hashtagPreference) ++ "\x7d"

/-- JSON.stringify of a generatePost request body, fields in object-key order. -/
def stringifyRawContent (r : RawContent) : String :=
  "\x7b" ++ String.intercalate ","
    (jsonFieldStr "postType" r.postType ++
     jsonFieldStr "topic" r.topic ++
     jsonFieldStr "audience" r.audience ++
     jsonFieldStr "style" r.style ++
     jsonFieldStr "guidelines" r.guidelines ++
     (match r.preferences with
      | none => []
      | some p => [jsonStrLit "preferences" ++ ":" ++ stringifyPreferencesObj p])) ++ "\x7d"

/-- JSON.stringify of a generate-poll request body. -/
def stringifyPollBody (b : PollBody) : String :=
  "\x7b" ++ String.intercalate ","
    (jsonFieldStr "topic" b.topic ++
     jsonFieldStr "audience" b.audience ++
     jsonFieldStr "style" b.style ++
     jsonFieldStr "guidelines" b.guidelines) ++ "\x7d"

/-- JSON.stringify of a generateImage request body. -/
def stringifyImageBody (b : ImageBody) : String :=
  "\x7b" ++ String.intercalate "," (jsonFieldStr "prompt" b.prompt) ++ "\x7d"

/-! ## Results, cache store, responses, error handler -/

/-- The structured result object the endpoints build and cache. The three
endpoints populate different subsets of fields; absent fields are none. The
cache stores JSON.stringify of this object and a hit returns JSON.parse of the
stored text, which round-trips to the identical object, so the cache is
modelled as storing the object itself. -/
structure GenResult where
  success : Bool
  content : Option String
  question : Option String
  options : Option (List String)
  imageUrl : Option String
  usage : Option String
deriving DecidableEq

/-- The Redis cache, modelled as an association list from key to stored value;
setex prepends, get returns the most recent binding. The TTL plays no role in
the claims settled here and is not modelled. -/
abbrev Cache := List (String × GenResult)

/-- redis.get -/
def cacheGet (c : Cache) (k : String) : Option GenResult :=
  (c.find? (fun e => e.1 == k)).map (fun e => e.2)

/-- redis.setex (the one-hour TTL elided). -/
def cacheSetex (c : Cache) (k : String) (v : GenResult) : Cache :=
  (k, v) :: c

/-- An HTTP JSON response: either res.json(result) with status 200, or an error
response produced by the errorHandler middleware, carrying success false, an
error message and optionally the zod issue list as details. -/
inductive ApiResponse where
  | json (status : Nat) (body : GenResult)
  | errorJson (status : Nat) (error : String) (details : Option (List ZodIssue))
deriving DecidableEq

/-- The JSON success field of a response: res.json echoes the success field of
the result object; every errorHandler response carries success false. -/
def ApiResponse.successField : ApiResponse → Bool
  | ApiResponse.json _ b => b.success
  | ApiResponse.errorJson _ _ _ => false

/-- An error reaching the errorHandler middleware: a ZodError from
contentSchema.parse, or a JavaScript Error with message and optional status.
Every error thrown in the handlers is a plain Error with no status field. -/
inductive ServerError where
  | zodError (issues : List ZodIssue)
  | jsError (status : Option Nat) (message : String)
deriving DecidableEq

/-- The errorHandler middleware: ZodError yields 400 with error Invalid input
and the issues as details; otherwise statusCode defaults to 500 and a status
500 masks the message as Internal server error. -/
def errorHandler : ServerError → ApiResponse
  | ServerError.zodError issues => ApiResponse.errorJson 400 "Invalid input" (some issues)
  | ServerError.jsError status message =>
    let statusCode := status.getD 500
    let msg := if statusCode == 500 then "Internal server error" else message
    ApiResponse.errorJson statusCode msg none

/-! ## The checkCache middleware -/

/-- The server environment: whether REDIS_URL was provided (redis non-null) and
the OPENAI_API_KEY value. -/
structure Env where
  redisAvailable : Bool
  apiKey : Option String
deriving DecidableEq

/-- The outcome of the awaited redis.get inside checkCache: a stored value, no
stored value, or a thrown cache error. -/
inductive CacheReadOutcome where
  | hit (value : GenResult)
  | miss
  | readError (message : String)
deriving DecidableEq

/-- The actual read outcome for a cache state (a live backend never throws in
this model; readError is injected where a failing backend is considered). -/
def cacheReadOf (c : Cache) (k : String) : CacheReadOutcome :=
  match cacheGet c k with
  | some v => CacheReadOutcome.hit v
  | none => CacheReadOutcome.miss

/-- What checkCache does with the read outcome: respond with the cached value
on a hit; call next() on a miss, and also on a cache error, which is only
logged. -/
inductive CacheStep where
  | respond (v : GenResult)
  | proceed
deriving DecidableEq

/-- The decision logic of checkCache lines 141 to 151. -/
def checkCacheStep : CacheReadOutcome → CacheStep
  | CacheReadOutcome.hit v => CacheStep.respond v
  | CacheReadOutcome.miss => CacheStep.proceed
  | CacheReadOutcome.readError _ => CacheStep.proceed

/-- Run an endpoint behind checkCache: when redis is absent, next() at once;
otherwise respond with the cached value on a hit and fall through to the route
handler otherwise. -/
def runWithCheckCache (env : Env) (c : Cache) (outcome : CacheReadOutcome)
    (handler : ApiResponse × Cache) : ApiResponse × Cache :=
  if env.redisAvailable then
    match checkCacheStep outcome with
    | CacheStep.respond v => (ApiResponse.json 200 v, c)
    | CacheStep.proceed => handler
  else handler

/-- The key checkCache computes for every endpoint it guards:
content: followed by JSON.stringify(req.body). -/
def checkCacheKeyOf (bodyJson : String) : String := "content:" ++ bodyJson

/-! ## Upstream model call outcomes -/

/-- The outcome of the awaited chat-completion call: the message content plus
usage accounting on success, or a thrown or rejected error (timeout, rate
limit, network) with its message. -/
inductive UpstreamOutcome where
  | ok (content : String) (usage : String)
  | err (message : String)
deriving DecidableEq

/-- The outcome of the awaited image-generation call: a url, a payload missing
data[0].url, or a thrown error. -/
inductive ImageUpstreamOutcome where
  | ok (url : String)
  | badPayload
  | err (message : String)
deriving DecidableEq

/-! ## The poll response parsing (lines 335 to 343) -/

/-- content.trim() followed by split at newlines and filter of lines whose trim
is empty (the filter keeps lines whose trimmed form is a truthy string). -/
def pollLines (raw : String) : List String :=
  (jsSplitNewline (jsTrim raw)).filter (fun l => jsTrim l != "")

/-- The field extraction applied to the filtered lines: lines[0] stripped and
trimmed becomes question, lines.slice(1,4) stripped and trimmed become options.
On an empty list, lines[0] is undefined and lines[0].replace throws a
TypeError, modelled as none. -/
def parsePollLines : List String → Option (String × List String)
  | [] => none
  | q :: rest =>
    some (jsTrim (stripNumericMarker q), (rest.take 3).map (fun l => jsTrim (stripNumericMarker l)))

/-- The whole poll response parsing, from raw upstream text. -/
def parsePoll (raw : String) : Option (String × List String) :=
  parsePollLines (pollLines raw)

/-! ## The three endpoints -/

/-- JavaScript falsy test on an optional string: undefined and the empty string
are falsy. -/
def isFalsyStr : Option String → Bool
  | none => true
  | some s => s == ""

/-- The cache key under which checkCache looks up a generatePost body, and under
which the generatePost handler stores its result (line 140 and line 222). -/
def contentCacheKey (r : RawContent) : String := checkCacheKeyOf (stringifyRawContent r)

/-- The key checkCache looks up for a generate-poll body (line 140). -/
def pollCheckCacheKey (b : PollBody) : String := checkCacheKeyOf (stringifyPollBody b)

/-- The key the generate-poll handler stores its result under (line 347). -/
def pollWriteCacheKey (b : PollBody) : String := "poll:" ++ stringifyPollBody b

/-- The key checkCache looks up for a generateImage body (line 140). -/
def imageCheckCacheKey (b : ImageBody) : String := checkCacheKeyOf (stringifyImageBody b)

/-- The key the generateImage handler stores its result under (line 275). -/
def imageWriteCacheKey (b : ImageBody) : String := "image:" ++ b.prompt.getD ""

/-- The generatePost route handler, lines 176 to 230: validate with
contentSchema.parse, check OPENAI_API_KEY, build the prompt, invoke the
upstream model; on success cache the result when redis is present and respond
with it; any thrown error goes to the errorHandler via next. -/
def generatePostHandler (env : Env) (c : Cache) (body : RawContent)
    (up : UpstreamOutcome) : ApiResponse × Cache :=
  match contentSchemaParse body with
  | Except.error issues => (errorHandler (ServerError.zodError issues), c)
  | Except.ok validated =>
    match env.apiKey with
    | none => (errorHandler (ServerError.jsError none "OpenAI API key is not configured"), c)
    | some _ =>
      match generatePrompt validated.postType validated with
      | Except.error m => (errorHandler (ServerError.jsError none m), c)
      | Except.ok _prompt =>
        match up with
        | UpstreamOutcome.err m => (errorHandler (ServerError.jsError none m), c)
        | UpstreamOutcome.ok content usage =>
          let result : GenResult :=
            { success := true, content := some content, question := none,
              options := none, imageUrl := none, usage := some usage }
          let c2 := if env.redisAvailable then cacheSetex c (contentCacheKey body) result else c
          (ApiResponse.json 200 result, c2)

/-- The generatePost endpoint behind checkCache, with the cache read outcome an
explicit argument (a live backend yields cacheReadOf; a failing backend yields
readError). -/
def generatePostWith (env : Env) (c : Cache) (body : RawContent)
    (up : UpstreamOutcome) (outcome : CacheReadOutcome) : ApiResponse × Cache :=
  runWithCheckCache env c outcome (generatePostHandler env c body up)

/-- The generatePost endpoint with a live cache backend. -/
def generatePostEndpoint (env : Env) (c : Cache) (body : RawContent)
    (up : UpstreamOutcome) : ApiResponse × Cache :=
  generatePostWith env c body up (cacheReadOf c (contentCacheKey body))

/-- The generate-poll route handler, lines 286 to 355: require a truthy topic,
check OPENAI_API_KEY, invoke the upstream model, parse its text into question
and options; on success cache under the poll: key when redis is present and
respond; the TypeError thrown by the parse on empty text also reaches the
errorHandler via the catch. -/
def generatePollHandler (env : Env) (c : Cache) (body : PollBody)
    (up : UpstreamOutcome) : ApiResponse × Cache :=
  if isFalsyStr body.topic then
    (errorHandler (ServerError.jsError none "Poll topic is required"), c)
  else
    match env.apiKey with
    | none => (errorHandler (ServerError.jsError none "OpenAI API key is not configured"), c)
    | some _ =>
      match up with
      | UpstreamOutcome.err m => (errorHandler (ServerError.jsError none m), c)
      | UpstreamOutcome.ok raw _usage =>
        match parsePoll raw with
        | none =>
          (errorHandler (ServerError.jsError none "Cannot read properties of undefined"), c)
        | some (q, opts) =>
          let result : GenResult :=
            { success := true, content := some (jsTrim raw), question := some q,
              options := some opts, imageUrl := none, usage := none }
          let c2 := if env.redisAvailable then cacheSetex c (pollWriteCacheKey body) result else c
          (ApiResponse.json 200 result, c2)

/-- The generate-poll endpoint behind checkCache with explicit read outcome. -/
def generatePollWith (env : Env) (c : Cache) (body : PollBody)
    (up : UpstreamOutcome) (outcome : CacheReadOutcome) : ApiResponse × Cache :=
  runWithCheckCache env c outcome (generatePollHandler env c body up)

/-- The generate-poll endpoint with a live cache backend: checkCache reads the
content: key, even though this handler writes the poll: key. -/
def generatePollEndpoint (env : Env) (c : Cache) (body : PollBody)
    (up : UpstreamOutcome) : ApiResponse × Cache :=
  generatePollWith env c body up (cacheReadOf c (pollCheckCacheKey body))

/-- The generateImage route handler, lines 233 to 283. -/
def generateImageHandler (env : Env) (c : Cache) (body : ImageBody)
    (up : ImageUpstreamOutcome) : ApiResponse × Cache :=
  if isFalsyStr body.prompt then
    (errorHandler (ServerError.jsError none "Prompt is required"), c)
  else
    match env.apiKey with
    | none => (errorHandler (ServerError.jsError none "OpenAI API key is not configured"), c)
    | some _ =>
      match up with
      | ImageUpstreamOutcome.err m => (errorHandler (ServerError.jsError none m), c)
      | ImageUpstreamOutcome.badPayload =>
        (errorHandler (ServerError.jsError none "Invalid response from image generation service"), c)
      | ImageUpstreamOutcome.ok url =>
        let result : GenResult :=
          { success := true, content := none, question := none,
            options := none, imageUrl := some url, usage := none }
        let c2 := if env.redisAvailable then cacheSetex c (imageWriteCacheKey body) result else c
        (ApiResponse.json 200 result, c2)

/-- The generateImage endpoint behind checkCache with a live cache backend:
checkCache reads the content: key while the handler writes the image: key. -/
def generateImageEndpoint (env : Env) (c : Cache) (body : ImageBody)
    (up : ImageUpstreamOutcome) : ApiResponse × Cache :=
  runWithCheckCache env c (cacheReadOf c (imageCheckCacheKey body))
    (generateImageHandler env c body up)

/-! ## Execution-order instrumentation for the generatePost pipeline

The routing for the generatePost operation is checkCache followed by the route
handler. The trace below records, in execution order, which of the three
observable steps run for a request: the awaited redis.get inside checkCache
(line 142), contentSchema.parse (line 179), and the awaited upstream
chat-completion call (line 193). It follows the same control flow as
generatePostEndpoint: with redis absent checkCache calls next() without any
lookup; a hit responds immediately; otherwise the handler validates, checks the
key, builds the prompt and calls upstream. -/

/-- An observable step of the generatePost pipeline. -/
inductive Event where
  | cacheLookup
  | validation
  | upstreamCall
deriving DecidableEq

/-- The steps the generatePost route handler itself executes: validation first,
then, when validation, the key check and the template lookup all pass, the
upstream call. -/
def generatePostHandlerTraceTail (env : Env) (body : RawContent) : List Event :=
  Event.validation ::
    (match contentSchemaParse body with
     | Except.error _ => []
     | Except.ok v =>
       match env.apiKey with
       | none => []
       | some _ =>
         match generatePrompt v.postType v with
         | Except.error _ => []
         | Except.ok _ => [Event.upstreamCall])

/-- The ordered list of observable steps executed for a generatePost request. -/
def generatePostTrace (env : Env) (c : Cache) (body : RawContent)
    (_up : UpstreamOutcome) : List Event :=
  if env.redisAvailable then
    Event.cacheLookup ::
      (match checkCacheStep (cacheReadOf c (contentCacheKey body)) with
       | CacheStep.respond _ => []
       | CacheStep.proceed => generatePostHandlerTraceTail env body)
  else generatePostHandlerTraceTail env body

/-! ## Concrete fixtures -/

/-- Environment with Redis configured and the API key present. -/
def envBoth : Env := ⟨true, some "sk-test"⟩

/-- Environment with Redis absent and the API key present. -/
def envNoRedis : Env := ⟨false, some "sk-test"⟩

/-- Environment with Redis absent and the API key missing. -/
def envNoKey : Env := ⟨false, none⟩

/-- A valid generatePost body. -/
def validBody : RawContent := ⟨some "post", some "remote work", none, none, none, none⟩

/-- A generatePost body missing the topic field. -/
def missingTopicBody : RawContent := ⟨some "post", none, none, none, none, none⟩

/-- A generatePost body whose topic is a single space: nonzero length but empty
after trimming. -/
def spaceTopicBody : RawContent := ⟨some "post", some " ", none, none, none, none⟩

/-- A generate-poll body. -/
def pollBody : PollBody := ⟨some "remote work", none, none, none⟩

/-- The upstream poll text of the scenario in the spec. -/
def wellFormedPollText : String :=
  "1. Is remote work here to stay?\n2. Yes\n3. No\n4. Depends\n5. Sparks workplace debate"

/-- A result object standing for a previously stored cache value. -/
def staleResult : GenResult :=
  ⟨true, some "stale cached content", none, none, none, none⟩

/-- A validated content request used as a concrete prompt-builder input. -/
def validRequest : ContentRequest :=
  ⟨"poll", "remote work", "general audience", "neutral and engaging", "none", none⟩

/-! ## Helper lemmas -/

/-- An empty issue list forces a present, enumerated postType and a present,
nonempty topic. -/
theorem contentSchemaIssues_eq_nil {r : RawContent} (h : contentSchemaIssues r = []) :
    (∃ t, r.postType = some t ∧ isValidPostType t = true) ∧
    (∃ tp, r.topic = some tp ∧ (tp.length == 0) = false) := by
  unfold contentSchemaIssues at h
  rcases List.append_eq_nil.mp h with ⟨h1, h2⟩
  constructor
  · cases hp : r.postType with
    | none => rw [hp] at h1; exact absurd h1 (by simp)
    | some t =>
      rw [hp] at h1
      refine ⟨t, rfl, ?_⟩
      by_contra hv
      simp [hv] at h1
  · cases hp : r.topic with
    | none => rw [hp] at h2; exact absurd h2 (by simp)
    | some tp =>
      rw [hp] at h2
      refine ⟨tp, rfl, ?_⟩
      by_contra hl
      simp at hl
      simp [hl] at h2

/-- When no issue is found, contentSchema.parse succeeds with the defaults
applied. -/
theorem contentSchemaParse_ok {r : RawContent} (h : contentSchemaIssues r = []) :
    contentSchemaParse r = Except.ok
      { postType := r.postType.getD ""
        topic := r.topic.getD ""
        audience := r.audience.getD "general audience"
        style := r.style.getD "neutral and engaging"
        guidelines := r.guidelines.getD "none"
        preferences := r.preferences } := by
  unfold contentSchemaParse
  simp [h]

/-- contentSchema.parse fails with the full issue list when it is nonempty. -/
theorem contentSchemaParse_err {r : RawContent} (h : contentSchemaIssues r ≠ []) :
    contentSchemaParse r = Except.error (contentSchemaIssues r) := by
  cases hI : contentSchemaIssues r with
  | nil => exact absurd hI h
  | cons x xs => simp [contentSchemaParse, hI]

/-- An enumerated postType always has a template, so generatePrompt succeeds. -/
theorem generatePrompt_ok_of_valid {t : String} (h : isValidPostType t = true)
    (c : ContentRequest) : ∃ s, generatePrompt t c = Except.ok s := by
  unfold isValidPostType at h
  simp only [Bool.or_eq_true, beq_iff_eq] at h
  rcases h with (h | h) | h <;> subst h <;> exact ⟨_, rfl⟩

/-- On a cache miss for the content: key, the generatePost endpoint falls
through to the route handler (with and without Redis configured). -/
theorem generatePostEndpoint_miss {env : Env} {c : Cache} {body : RawContent}
    (up : UpstreamOutcome) (hmiss : cacheGet c (contentCacheKey body) = none) :
    generatePostEndpoint env c body up = generatePostHandler env c body up := by
  unfold generatePostEndpoint generatePostWith runWithCheckCache cacheReadOf
  rw [hmiss]
  cases hr : env.redisAvailable <;> simp [checkCacheStep]

/-- With a valid body and a configured key, a failing upstream call sends the
generatePost handler to the errorHandler, which masks the message to the
generic Internal server error, and leaves the cache untouched. -/
theorem generatePostHandler_err {env : Env} {c : Cache} {body : RawContent}
    (m : String) {k : String}
    (hvalid : contentSchemaIssues body = []) (hkey : env.apiKey = some k) :
    generatePostHandler env c body (UpstreamOutcome.err m) =
      (ApiResponse.errorJson 500 "Internal server error" none, c) := by
  obtain ⟨t, hpt, hv⟩ := (contentSchemaIssues_eq_nil hvalid).1
  have hparse := contentSchemaParse_ok hvalid
  unfold isValidPostType at hv
  simp only [Bool.or_eq_true, beq_iff_eq] at hv
  rcases hv with (h | h) | h <;> subst h <;>
    simp [generatePostHandler, hparse, hkey, hpt, generatePrompt, promptTemplates, errorHandler]

/-- With a valid body and the key absent, the generatePost handler throws the
configuration error, which the errorHandler masks to Internal server error. -/
theorem generatePostHandler_noKey {env : Env} {c : Cache} {body : RawContent}
    (up : UpstreamOutcome)
    (hvalid : contentSchemaIssues body = []) (hkey : env.apiKey = none) :
    generatePostHandler env c body up =
      (ApiResponse.errorJson 500 "Internal server error" none, c) := by
  have hparse := contentSchemaParse_ok hvalid
  simp [generatePostHandler, hparse, hkey, errorHandler]

/-- The empty issue list is equivalent to the conjunction of the two checks the
schema performs. -/
theorem contentSchemaIssues_nil_iff (r : RawContent) :
    contentSchemaIssues r = [] ↔
      ((∃ t, r.postType = some t ∧ isValidPostType t = true) ∧
       (∃ tp, r.topic = some tp ∧ 1 ≤ tp.length)) := by
  unfold contentSchemaIssues
  cases r.postType with
  | none => simp
  | some t =>
    cases r.topic with
    | none => simp
    | some tp =>
      by_cases hv : isValidPostType t = true <;>
        by_cases hl : tp.length = 0 <;>
          simp [hv, hl, Nat.one_le_iff_ne_zero]

/-- schemaAccepts is exactly the empty-issue-list test. -/
theorem schemaAccepts_iff_issues_nil (r : RawContent) :
    schemaAccepts r = true ↔ contentSchemaIssues r = [] := by
  unfold schemaAccepts contentSchemaParse
  cases hI : contentSchemaIssues r <;> simp [hI]

/-! ## Claim theorems -/

/-- C1: evaluation of the code at the failing input. For the generatePost
operation the write key equals the checkCache lookup key, so a second identical
request is served from the cache without a second upstream invocation. For the
poll operation the handler writes under the poll: key while checkCache looks up
the content: key, so after a successful first poll call the lookup key holds no
entry, the entry sits under the unread write key, and an identical second call
reaches the upstream again (here made to fail, proving it was invoked); the
image operation has the same mismatch between its image: write key and the
content: lookup key. -/
theorem c1_poll_and_image_write_key_never_read :
    (generatePostEndpoint envBoth
        (generatePostEndpoint envBoth [] validBody (UpstreamOutcome.ok "text" "u")).2
        validBody (UpstreamOutcome.err "second upstream invocation") =
      (ApiResponse.json 200 ⟨true, some "text", none, none, none, some "u"⟩,
        (generatePostEndpoint envBoth [] validBody (UpstreamOutcome.ok "text" "u")).2)) ∧
    (generatePollEndpoint envBoth [] pollBody
        (UpstreamOutcome.ok wellFormedPollText "u1")).1.successField = true ∧
    cacheGet (generatePollEndpoint envBoth [] pollBody
        (UpstreamOutcome.ok wellFormedPollText "u1")).2 (pollCheckCacheKey pollBody) = none ∧
    cacheGet (generatePollEndpoint envBoth [] pollBody
        (UpstreamOutcome.ok wellFormedPollText "u1")).2 (pollWriteCacheKey pollBody) ≠ none ∧
    (generatePollEndpoint envBoth
        (generatePollEndpoint envBoth [] pollBody (UpstreamOutcome.ok wellFormedPollText "u1")).2
        pollBody (UpstreamOutcome.err "second upstream invocation") =
      (ApiResponse.errorJson 500 "Internal server error" none,
        (generatePollEndpoint envBoth [] pollBody (UpstreamOutcome.ok wellFormedPollText "u1")).2)) ∧
    cacheGet (generateImageEndpoint envBoth [] ⟨some "a cat"⟩
        (ImageUpstreamOutcome.ok "http://example.com/cat.png")).2
      (imageCheckCacheKey ⟨some "a cat"⟩) = none ∧
    cacheGet (generateImageEndpoint envBoth [] ⟨some "a cat"⟩
        (ImageUpstreamOutcome.ok "http://example.com/cat.png")).2
      (imageWriteCacheKey ⟨some "a cat"⟩) ≠ none := by
  decide

/-- C2 counterexample: the checkCache middleware runs before the route handler,
so the cache lookup precedes validation. On an ordinary miss the trace is
lookup, then validation, then upstream; on a hit the trace is the lookup alone
and the validator never runs at all. -/
theorem c2_cache_lookup_precedes_validation :
    generatePostTrace envBoth [] validBody (UpstreamOutcome.ok "text" "u") =
      [Event.cacheLookup, Event.validation, Event.upstreamCall] ∧
    generatePostTrace envBoth [(contentCacheKey validBody, staleResult)] validBody
      (UpstreamOutcome.err "never called") = [Event.cacheLookup] := by
  decide

/-- C2 amended: with Redis configured the cache lookup is always the first step
and validation runs only when the lookup does not respond; without Redis
validation is first. In every case validation precedes the upstream call; the
original claim had the lookup and validation in the opposite order. -/
theorem c2_validation_after_cache_lookup_before_upstream
    (env : Env) (c : Cache) (body : RawContent) (up : UpstreamOutcome) :
    (env.redisAvailable = true ∧
      (generatePostTrace env c body up = [Event.cacheLookup] ∨
       generatePostTrace env c body up = [Event.cacheLookup, Event.validation] ∨
       generatePostTrace env c body up =
         [Event.cacheLookup, Event.validation, Event.upstreamCall])) ∨
    (env.redisAvailable = false ∧
      (generatePostTrace env c body up = [Event.validation] ∨
       generatePostTrace env c body up = [Event.validation, Event.upstreamCall])) := by
  unfold generatePostTrace generatePostHandlerTraceTail
  cases hr : env.redisAvailable
  · right
    refine ⟨rfl, ?_⟩
    simp only [Bool.false_eq_true, if_false]
    cases hp : contentSchemaParse body with
    | error e => simp [hp]
    | ok v =>
      cases hk : env.apiKey with
      | none => simp [hp, hk]
      | some k =>
        cases hg : generatePrompt v.postType v with
        | error e => simp [hp, hk, hg]
        | ok s => simp [hp, hk, hg]
  · left
    refine ⟨rfl, ?_⟩
    simp only [if_true]
    cases hcs : checkCacheStep (cacheReadOf c (contentCacheKey body)) with
    | respond v => simp [hcs]
    | proceed =>
      cases hp : contentSchemaParse body with
      | error e => simp [hcs, hp]
      | ok v =>
        cases hk : env.apiKey with
        | none => simp [hcs, hp, hk]
        | some k =>
          cases hg : generatePrompt v.postType v with
          | error e => simp [hcs, hp, hk, hg]
          | ok s => simp [hcs, hp, hk, hg]

/-- C3 counterexample: on an upstream text that is empty (or whitespace only)
the filtered line list is empty, lines[0] is undefined and the parse throws a
TypeError instead of producing a degraded result; the request then ends in the
errorHandler with a generic failure, not in a result computed from the
available lines. -/
theorem c3_empty_text_parse_throws :
    parsePoll "" = none ∧
    generatePollHandler envBoth [] pollBody (UpstreamOutcome.ok "" "u") =
      (ApiResponse.errorJson 500 "Internal server error" none, []) ∧
    (generatePollHandler envBoth [] pollBody (UpstreamOutcome.ok "" "u")).1.successField
      = false := by
  decide

/-- C3 amended: for every raw text with at least one nonempty line after
trimming and filtering, the parse does not throw and yields the question from
the first line and options from up to the next three lines, with markers
stripped, even when fewer than two lines are present; on a text with no lines
after filtering the parse throws (modelled as none) rather than producing a
degraded result. -/
theorem c3_parse_degrades_only_on_nonempty :
    (∀ raw q rest, pollLines raw = q :: rest →
      parsePoll raw = some (jsTrim (stripNumericMarker q),
        (rest.take 3).map (fun l => jsTrim (stripNumericMarker l)))) ∧
    (∀ raw, pollLines raw = [] → parsePoll raw = none) := by
  constructor
  · intro raw q rest h
    unfold parsePoll
    rw [h]
    rfl
  · intro raw h
    unfold parsePoll
    rw [h]
    rfl

/-- C3 witness: a one-line upstream text parses without throwing into a
question and an empty option list; a whitespace-only text hits the throwing
branch. -/
theorem c3_witness :
    parsePoll "1. Only a question" = some ("Only a question", []) ∧
    parsePoll "  " = none := by
  constructor
  · have h := c3_parse_degrades_only_on_nonempty.1 "1. Only a question"
      "1. Only a question" [] (by decide)
    rw [h]
    decide
  · exact c3_parse_degrades_only_on_nonempty.2 "  " (by decide)

/-- C4 counterexample: a topic consisting of a single space is empty after
trimming, yet contentSchema accepts it, because z.string().min(1) checks the
untrimmed length. -/
theorem c4_whitespace_topic_accepted :
    jsTrim " " = "" ∧ schemaAccepts spaceTopicBody = true := by
  decide

/-- C4 amended: the validator accepts a body exactly when postType is present
and one of post, thread, poll, and topic is present with length at least one;
the topic is not trimmed, so whitespace-only topics pass. -/
theorem c4_schema_accepts_iff (r : RawContent) :
    schemaAccepts r = true ↔
      ((∃ t, r.postType = some t ∧ isValidPostType t = true) ∧
       (∃ tp, r.topic = some tp ∧ 1 ≤ tp.length)) := by
  rw [schemaAccepts_iff_issues_nil]
  exact contentSchemaIssues_nil_iff r

/-- C5: on any upstream text whose trimmed, filtered lines begin with four
lines (in particular every well-formed six-line response, and the five-line
scenario of the spec), the parse returns the first line with its numeric marker
stripped as the question and the next three lines with markers stripped, in
order, as the options. -/
theorem c5_wellformed_poll_parse (raw a b c d : String) (rest : List String)
    (h : pollLines raw = a :: b :: c :: d :: rest) :
    parsePoll raw = some (jsTrim (stripNumericMarker a),
      [jsTrim (stripNumericMarker b), jsTrim (stripNumericMarker c),
       jsTrim (stripNumericMarker d)]) := by
  unfold parsePoll
  rw [h]
  rfl

/-- C5 witness: the concrete scenario of the spec. -/
theorem c5_witness :
    pollLines wellFormedPollText =
      ["1. Is remote work here to stay?", "2. Yes", "3. No", "4. Depends",
       "5. Sparks workplace debate"] ∧
    parsePoll wellFormedPollText =
      some ("Is remote work here to stay?", ["Yes", "No", "Depends"]) := by
  refine ⟨by decide, ?_⟩
  have h := c5_wellformed_poll_parse wellFormedPollText "1. Is remote work here to stay?"
    "2. Yes" "3. No" "4. Depends" ["5. Sparks workplace debate"] (by decide)
  rw [h]
  decide

/-- C6: when the upstream call for a valid, uncached generatePost request fails,
the endpoint responds with success false and an error message (the generic
Internal server error produced by the errorHandler for a status-500 failure)
and the cache state is returned unchanged, so the store holds no entry for the
request key afterward: the setex write sits only on the success path. -/
theorem c6_upstream_failure_not_cached (env : Env) (c : Cache) (body : RawContent)
    (m k : String)
    (hvalid : contentSchemaIssues body = [])
    (hkey : env.apiKey = some k)
    (hmiss : cacheGet c (contentCacheKey body) = none) :
    generatePostEndpoint env c body (UpstreamOutcome.err m) =
      (ApiResponse.errorJson 500 "Internal server error" none, c) ∧
    (generatePostEndpoint env c body (UpstreamOutcome.err m)).1.successField = false ∧
    cacheGet (generatePostEndpoint env c body (UpstreamOutcome.err m)).2
      (contentCacheKey body) = none := by
  have hmain : generatePostEndpoint env c body (UpstreamOutcome.err m) =
      (ApiResponse.errorJson 500 "Internal server error" none, c) :=
    (generatePostEndpoint_miss _ hmiss).trans (generatePostHandler_err m hvalid hkey)
  refine ⟨hmain, ?_, ?_⟩
  · rw [hmain]
    rfl
  · rw [hmain]
    exact hmiss

/-- C6 witness: a concrete valid request with an empty cache and a timed-out
upstream call. -/
theorem c6_witness :
    contentSchemaIssues validBody = [] ∧
    envBoth.apiKey = some "sk-test" ∧
    cacheGet [] (contentCacheKey validBody) = none ∧
    generatePostEndpoint envBoth [] validBody
        (UpstreamOutcome.err "timeout of 60000ms exceeded") =
      (ApiResponse.errorJson 500 "Internal server error" none, []) := by
  refine ⟨by decide, by decide, by decide, ?_⟩
  exact (c6_upstream_failure_not_cached envBoth [] validBody
    "timeout of 60000ms exceeded" "sk-test" (by decide) (by decide) (by decide)).1

/-- C7: a body with a nonempty issue list makes the handler respond with status
400, error Invalid input and details carrying the whole issue list (zod reports
every violated field, as the model does); and a body whose topic is absent has
the topic violation in its issue list whatever the other fields hold. -/
theorem c7_validation_failure_lists_all_violations :
    (∀ (env : Env) (c : Cache) (body : RawContent) (up : UpstreamOutcome),
      contentSchemaIssues body ≠ [] →
      generatePostHandler env c body up =
        (ApiResponse.errorJson 400 "Invalid input" (some (contentSchemaIssues body)), c)) ∧
    (∀ body : RawContent, body.topic = none →
      (⟨"topic", "Required"⟩ : ZodIssue) ∈ contentSchemaIssues body) := by
  constructor
  · intro env c body up hbad
    have hparse := contentSchemaParse_err hbad
    unfold generatePostHandler
    rw [hparse]
    rfl
  · intro body h
    unfold contentSchemaIssues
    rw [h]
    simp

/-- C7 witness: a body with a valid postType but no topic yields the 400
response whose details list the topic violation. -/
theorem c7_witness :
    contentSchemaIssues missingTopicBody ≠ [] ∧
    generatePostHandler envBoth [] missingTopicBody (UpstreamOutcome.ok "t" "u") =
      (ApiResponse.errorJson 400 "Invalid input" (some [⟨"topic", "Required"⟩]), []) ∧
    (⟨"topic", "Required"⟩ : ZodIssue) ∈ contentSchemaIssues missingTopicBody := by
  refine ⟨by decide, ?_,
    c7_validation_failure_lists_all_violations.2 missingTopicBody rfl⟩
  have h := c7_validation_failure_lists_all_violations.1 envBoth [] missingTopicBody
    (UpstreamOutcome.ok "t" "u") (by decide)
  rw [h]
  decide

/-- C8 counterexample: with the API key absent, a valid request fails with the
generic Internal server error message of the errorHandler, not with the
configuration message the handler threw, so the ConfigurationError is not
surfaced verbatim to the caller. -/
theorem c8_config_error_message_masked :
    generatePostEndpoint envNoKey [] validBody (UpstreamOutcome.err "unused") =
      (ApiResponse.errorJson 500 "Internal server error" none, []) ∧
    "Internal server error" ≠ "OpenAI API key is not configured" := by
  decide

/-- C8 amended: with the credential absent, a valid uncached request fails by
itself with success false and status 500, without any upstream call (the result
does not depend on the upstream outcome) and without touching the cache; the
error reaching the caller is the generic Internal server error, the verbatim
configuration message being masked by the errorHandler. -/
theorem c8_missing_key_fails_request_only (env : Env) (c : Cache) (body : RawContent)
    (up₁ up₂ : UpstreamOutcome)
    (hkey : env.apiKey = none)
    (hvalid : contentSchemaIssues body = [])
    (hmiss : cacheGet c (contentCacheKey body) = none) :
    generatePostEndpoint env c body up₁ =
      (ApiResponse.errorJson 500 "Internal server error" none, c) ∧
    generatePostEndpoint env c body up₁ = generatePostEndpoint env c body up₂ := by
  have h1 : generatePostEndpoint env c body up₁ =
      (ApiResponse.errorJson 500 "Internal server error" none, c) :=
    (generatePostEndpoint_miss _ hmiss).trans (generatePostHandler_noKey up₁ hvalid hkey)
  have h2 : generatePostEndpoint env c body up₂ =
      (ApiResponse.errorJson 500 "Internal server error" none, c) :=
    (generatePostEndpoint_miss _ hmiss).trans (generatePostHandler_noKey up₂ hvalid hkey)
  exact ⟨h1, h1.trans h2.symm⟩

/-- C8 witness: concrete valid request against an environment with no key. -/
theorem c8_witness :
    envNoKey.apiKey = none ∧
    contentSchemaIssues validBody = [] ∧
    cacheGet [] (contentCacheKey validBody) = none ∧
    generatePostEndpoint envNoKey [] validBody (UpstreamOutcome.ok "never reached" "u") =
      (ApiResponse.errorJson 500 "Internal server error" none, []) := by
  refine ⟨by decide, by decide, by decide, ?_⟩
  exact (c8_missing_key_fails_request_only envNoKey [] validBody
    (UpstreamOutcome.ok "never reached" "u") (UpstreamOutcome.err "other") (by decide)
    (by decide) (by decide)).1

/-- C9: the prompt builder is a pure function of its arguments: for each of the
three enumerated kinds, two invocations on equal field objects yield the same
prompt string, and both succeed (the templates are string interpolation only;
the embedding has no time or randomness to depend on, mirroring the source). -/
theorem c9_prompt_builder_deterministic (kind : String) (f₁ f₂ : ContentRequest)
    (hkind : isValidPostType kind = true) (heq : f₁ = f₂) :
    ∃ s, generatePrompt kind f₁ = Except.ok s ∧ generatePrompt kind f₂ = Except.ok s := by
  subst heq
  obtain ⟨s, hs⟩ := generatePrompt_ok_of_valid hkind f₁
  exact ⟨s, hs, hs⟩

/-- C9 witness: the poll template applied twice to the same concrete request. -/
theorem c9_witness :
    ∃ s, generatePrompt "poll" validRequest = Except.ok s ∧
      generatePrompt "poll" validRequest = Except.ok s :=
  c9_prompt_builder_deterministic "poll" validRequest validRequest (by decide) rfl

/-- C10: a thrown cache read is handled inside checkCache by logging and
calling next(), exactly like a miss: the endpoint outcome under a read error
equals the outcome under a miss, for the generatePost and the generate-poll
pipelines, so a failing cache backend never fails the request. -/
theorem c10_cache_read_error_behaves_as_miss (env : Env) (c : Cache)
    (body : RawContent) (pbody : PollBody) (up pup : UpstreamOutcome) (msg : String) :
    checkCacheStep (CacheReadOutcome.readError msg) = CacheStep.proceed ∧
    generatePostWith env c body up (CacheReadOutcome.readError msg) =
      generatePostWith env c body up CacheReadOutcome.miss ∧
    generatePollWith env c pbody pup (CacheReadOutcome.readError msg) =
      generatePollWith env c pbody pup CacheReadOutcome.miss :=
  ⟨rfl, rfl, rfl⟩

end SocialPoster
